import Mathlib

/-!
Verification of the `err-into` library (src/lib.rs).

The library provides three trait operations over Rust's `Result` and
`Option` containers:
  * `ErrorInto::err_into`  : `self.map_err(Into::into)`
  * `ResultInto::res_into` : `self.map(Into::into).map_err(Into::into)`
  * `MapInto::map_into`    : `self.map(Into::into)` (one impl for `Result`,
    one for `Option`)

We embed the two container types shallowly and pass the ambient `Into`
conversion capability as an explicit total function, following the spec's
design note that in a target without compile-time conversion constraints
the capability is "an explicit conversion function parameter supplied by
the caller".
-/

/-- Rust's `Result<T, E>`: success value XOR error value. -/
inductive RResult (T E : Type) where
  | ok : T → RResult T E
  | err : E → RResult T E
  deriving DecidableEq, Repr

/-- Rust's `Option<T>`: value or absence. -/
inductive ROption (T : Type) where
  | some : T → ROption T
  | none : ROption T
  deriving DecidableEq, Repr

namespace RResult

/-- `Result::map`: applies `f` to the `Ok` payload, passes `Err` through. -/
def map (f : T → U) : RResult T E → RResult U E
  | .ok t => .ok (f t)
  | .err e => .err e

/-- `Result::map_err`: applies `f` to the `Err` payload, passes `Ok` through. -/
def map_err (f : E → F) : RResult T E → RResult T F
  | .ok t => .ok t
  | .err e => .err (f e)

/-- Variant tag of a `Result`: `true` on `Ok`, `false` on `Err`. -/
def is_ok : RResult T E → Bool
  | .ok _ => true
  | .err _ => false

end RResult

namespace ROption

/-- `Option::map`: applies `f` to the `Some` payload, passes `None` through. -/
def map (f : T → U) : ROption T → ROption U
  | .some t => .some (f t)
  | .none => .none

/-- Variant tag of an `Option`: `true` on `Some`, `false` on `None`. -/
def is_some : ROption T → Bool
  | .some _ => true
  | .none => false

end ROption

/-- `ErrorInto::err_into` for `Result<T, F>` with `F: Into<E>`:
the body is `self.map_err(Into::into)`; `conv` is the `Into` capability. -/
def err_into (conv : F → E) (self : RResult T F) : RResult T E :=
  self.map_err conv

/-- `ResultInto::res_into` for `Result<U, F>` with `U: Into<T>, F: Into<E>`:
the body is `self.map(Into::into).map_err(Into::into)`; `convOk` and
`convErr` are the two `Into` capabilities. -/
def res_into (convOk : U → T) (convErr : F → E) (self : RResult U F) :
    RResult T E :=
  (self.map convOk).map_err convErr

/-- `MapInto::map_into` for `Result<T, E>` with `T: Into<U>`:
the body is `self.map(Into::into)`. -/
def map_into (conv : T → U) (self : RResult T E) : RResult U E :=
  self.map conv

/-- `MapInto::map_into` for `Option<T>` with `T: Into<U>`:
the body is `self.map(Into::into)`. -/
def map_into_opt (conv : T → U) (self : ROption T) : ROption U :=
  self.map conv

/-- C1: `err_into` applied to `Ok(t)` returns `Ok(t)` with the success
payload unchanged, and applied to `Err(e)` returns `Err(conv(e))`, the
error payload transformed by the ambient conversion. -/
theorem C1_err_into_spec {T F E : Type} (conv : F → E) :
    (∀ t : T, err_into conv (.ok t) = (.ok t : RResult T E)) ∧
    (∀ e : F, err_into conv (.err e) = (.err (conv e) : RResult T E)) :=
  ⟨fun _ => rfl, fun _ => rfl⟩

/-- C2: `res_into` applied to `Ok(t)` returns `Ok(convOk(t))` using the
success-channel conversion, and applied to `Err(e)` returns
`Err(convErr(e))` using the error-channel conversion. -/
theorem C2_res_into_spec {U T F E : Type} (convOk : U → T) (convErr : F → E) :
    (∀ t : U, res_into convOk convErr (.ok t) = (.ok (convOk t) : RResult T E)) ∧
    (∀ e : F, res_into convOk convErr (.err e) = (.err (convErr e) : RResult T E)) :=
  ⟨fun _ => rfl, fun _ => rfl⟩

/-- C3: `map_into` on `Result` applied to `Ok(t)` returns `Ok(conv(t))`,
and applied to `Err(e)` returns `Err(e)` with the error value passed
through unchanged. -/
theorem C3_map_into_result_spec {T U E : Type} (conv : T → U) :
    (∀ t : T, map_into conv (.ok t) = (.ok (conv t) : RResult U E)) ∧
    (∀ e : E, map_into conv (.err e) = (.err e : RResult U E)) :=
  ⟨fun _ => rfl, fun _ => rfl⟩

/-- C4: `map_into` on `Option` applied to `Some(t)` returns
`Some(conv(t))`, and applied to `None` returns `None`. -/
theorem C4_map_into_option_spec {T U : Type} (conv : T → U) :
    (∀ t : T, map_into_opt conv (.some t) = (.some (conv t) : ROption U)) ∧
    map_into_opt conv (.none : ROption T) = (.none : ROption U) :=
  ⟨fun _ => rfl, rfl⟩

/-- C5: for every `Result` value and any pair of conversions, `res_into`
equals `map_into` followed by `err_into`, and also equals `err_into`
followed by `map_into`: the two single-channel transformations commute
and either composition equals the both-channels operation. -/
theorem C5_res_into_composition {U T F E : Type}
    (convOk : U → T) (convErr : F → E) (r : RResult U F) :
    res_into convOk convErr r = err_into convErr (map_into convOk r) ∧
    res_into convOk convErr r = map_into convOk (err_into convErr r) := by
  cases r <;> exact ⟨rfl, rfl⟩

/-- C6: each of the four operations preserves the variant tag of its
input (`Ok` vs `Err`, `Some` vs `None`); the tag is never swapped,
dropped, or duplicated. -/
theorem C6_variant_preservation {T U F E : Type}
    (convOk : U → T) (convErr : F → E) (convT : T → U) :
    (∀ r : RResult T F, (err_into (T := T) convErr r).is_ok = r.is_ok) ∧
    (∀ r : RResult U F, (res_into (T := T) (E := E) convOk convErr r).is_ok = r.is_ok) ∧
    (∀ r : RResult T E, (map_into convT r).is_ok = r.is_ok) ∧
    (∀ o : ROption T, (map_into_opt convT o).is_some = o.is_some) :=
  ⟨fun r => by cases r <;> rfl, fun r => by cases r <;> rfl,
   fun r => by cases r <;> rfl, fun o => by cases o <;> rfl⟩

/-- C7: when every conversion capability supplied is the identity
conversion, each of `err_into`, `res_into`, `map_into` (on `Result`) and
`map_into` (on `Option`) returns a container structurally equal to its
input. -/
theorem C7_identity_conversion {T E : Type} :
    (∀ r : RResult T E, err_into id r = r) ∧
    (∀ r : RResult T E, res_into id id r = r) ∧
    (∀ r : RResult T E, map_into id r = r) ∧
    (∀ o : ROption T, map_into_opt id o = o) :=
  ⟨fun r => by cases r <;> rfl, fun r => by cases r <;> rfl,
   fun r => by cases r <;> rfl, fun o => by cases o <;> rfl⟩

/-- C8: each operation is total: for every input it returns a concrete
output container — an `Ok`/`Err` (or `Some`/`None`) value — with no error
branch of its own, the supplied conversions being total functions. -/
theorem C8_totality {T U F E : Type}
    (convOk : U → T) (convErr : F → E) (convT : T → U) :
    (∀ r : RResult T F, (∃ t, err_into (T := T) convErr r = .ok t) ∨
      (∃ e, err_into (T := T) convErr r = .err e)) ∧
    (∀ r : RResult U F, (∃ t, res_into (T := T) (E := E) convOk convErr r = .ok t) ∨
      (∃ e, res_into (T := T) (E := E) convOk convErr r = .err e)) ∧
    (∀ r : RResult T E, (∃ u, map_into convT r = .ok u) ∨
      (∃ e, map_into convT r = .err e)) ∧
    (∀ o : ROption T, (∃ u, map_into_opt convT o = .some u) ∨
      map_into_opt convT o = .none) :=
  ⟨fun r => by cases r with
    | ok t => exact Or.inl ⟨t, rfl⟩
    | err e => exact Or.inr ⟨convErr e, rfl⟩,
   fun r => by cases r with
    | ok t => exact Or.inl ⟨convOk t, rfl⟩
    | err e => exact Or.inr ⟨convErr e, rfl⟩,
   fun r => by cases r with
    | ok t => exact Or.inl ⟨convT t, rfl⟩
    | err e => exact Or.inr ⟨e, rfl⟩,
   fun o => by cases o with
    | some t => exact Or.inl ⟨convT t, rfl⟩
    | none => exact Or.inr rfl⟩

/-- C9: for `res_into`, only the conversion matching the present variant
influences the result: on `Ok(t)` the output is the same for any two
error-channel conversions, and on `Err(e)` the output is the same for any
two success-channel conversions. -/
theorem C9_unused_channel_noninterference {U T F E : Type} :
    (∀ (convOk : U → T) (convErr₁ convErr₂ : F → E) (t : U),
      res_into convOk convErr₁ (.ok t) = res_into convOk convErr₂ (.ok t)) ∧
    (∀ (convOk₁ convOk₂ : U → T) (convErr : F → E) (e : F),
      res_into convOk₁ convErr (.err e) = res_into convOk₂ convErr (.err e)) :=
  ⟨fun _ _ _ _ => rfl, fun _ _ _ _ => rfl⟩

/-- C10: `res_into` generalises both single-channel operations: with the
identity success-channel conversion it coincides with `err_into`, and
with the identity error-channel conversion it coincides with `map_into`. -/
theorem C10_res_into_generalises {T U F E : Type}
    (convErr : F → E) (convOk : T → U) :
    (∀ r : RResult T F, res_into id convErr r = err_into convErr r) ∧
    (∀ r : RResult T F, res_into convOk id r = map_into convOk r) :=
  ⟨fun r => by cases r <;> rfl, fun r => by cases r <;> rfl⟩
